import Mathlib

/-!
Shallow embedding of the two-tier TTL cache implemented by class
`CacheManager` in `src/cache_manager.py` of the num-verify repository,
together with proofs settling the specification claims about it.

Modelling conventions:
* Wall-clock instants and durations are exact integers in a fixed time
  unit (Python timedelta values are exact integral microseconds, and the
  datetime arithmetic of the source is exact); each operation that
  consults the clock receives the current instant as an explicit
  argument.
* The payload type is an arbitrary type `V`; the cache never inspects
  payloads.
* The durable tier is a map from logical keys to files; a file is either
  a well-formed serialized record or undecodable bytes.  Keying by the
  logical key is faithful because the on-disk name is a deterministic
  digest of the key.
* Python truthiness matters in two places of the source: `not max_age`
  is true both for `None` and for the zero timedelta, and the test
  `if cache_entry["ttl"]` is false both for `None` and for `0.0`.
-/

namespace NumVerify

/-- One cache record: creation instant, optional ttl duration, and the
payload.  Mirrors the dict built in `CacheManager.set`. -/
structure CacheEntry (V : Type) where
  timestamp : ℤ
  ttl : Option ℤ
  data : V
deriving DecidableEq

/-- A durable-tier file: either a well-formed serialized record or bytes
that do not decode as a record. -/
inductive DiskFile (V : Type) where
  | record (entry : CacheEntry V)
  | corrupt
deriving DecidableEq

def msgMalformed : String := "malformed cache file"

/-- Raw decode of a durable file; corrupt bytes raise an exception in the
source (`json.load`), modelled as an `Except.error`. -/
def decode {V : Type} : DiskFile V → Except String (CacheEntry V)
  | DiskFile.record e => Except.ok e
  | DiskFile.corrupt => Except.error msgMalformed

namespace CacheManager

/-- Python truthiness of an optional duration or seconds count: false for
`None` and for zero, true otherwise (also for negative values). -/
def truthy : Option ℤ → Bool
  | none => false
  | some x => decide (x ≠ 0)

/-- Embedding of `CacheManager._is_cache_valid` with the source control
flow: return true when `not max_age`; otherwise compare the age against
the stored ttl when that is truthy, and against `max_age` when not. -/
def is_cache_valid {V : Type} (now : ℤ) (entry : CacheEntry V) (max_age : Option ℤ) : Bool :=
  if !truthy max_age then
    true
  else
    let age := now - entry.timestamp
    if truthy entry.ttl then decide (age < entry.ttl.getD 0)
    else decide (age < max_age.getD 0)

/-- Embedding of `CacheManager._read_cache_file`: the decode error is
caught inside the helper and mapped to `none`. -/
def read_cache_file {V : Type} (f : DiskFile V) : Option (CacheEntry V) :=
  match decode f with
  | Except.ok e => some e
  | Except.error _ => none

/-- The observable state of one `CacheManager` instance: the in-memory
tier and the durable tier. -/
@[ext]
structure CacheState (V : Type) where
  memory : String → Option (CacheEntry V)
  disk : String → Option (DiskFile V)

def upd {α : Type} (m : String → Option α) (k : String) (x : α) : String → Option α :=
  fun j => if j = k then some x else m j

def del {α : Type} (m : String → Option α) (k : String) : String → Option α :=
  fun j => if j = k then none else m j

/-- A freshly constructed instance over an empty cache directory. -/
def emptyState {V : Type} : CacheState V :=
  { memory := fun _ => none, disk := fun _ => none }

/-- Disk half of `CacheManager.get`: when the file exists, decodes, and is
valid, the entry is promoted into the memory tier and returned. -/
def get_disk {V : Type} (s : CacheState V) (now : ℤ) (key : String) (max_age : Option ℤ) :
    Option V × CacheState V :=
  match s.disk key with
  | none => (none, s)
  | some f =>
    match read_cache_file f with
    | none => (none, s)
    | some e =>
      if is_cache_valid now e max_age then
        (some e.data, { s with memory := upd s.memory key e })
      else (none, s)

/-- Embedding of `CacheManager.get`: memory tier first; a memory hit that
fails validation falls through to the durable tier. -/
def get {V : Type} (s : CacheState V) (now : ℤ) (key : String) (max_age : Option ℤ) :
    Option V × CacheState V :=
  match s.memory key with
  | some e =>
    if is_cache_valid now e max_age then (some e.data, s)
    else get_disk s now key max_age
  | none => get_disk s now key max_age

/-- Embedding of `CacheManager.set`: note the truthiness test in the
source line building the entry, which stores `None` for a zero ttl. -/
def set {V : Type} (s : CacheState V) (now : ℤ) (key : String) (data : V) (ttl : Option ℤ) :
    CacheState V :=
  let entry : CacheEntry V :=
    { timestamp := now, ttl := if truthy ttl then ttl else none, data := data }
  { memory := upd s.memory key entry, disk := upd s.disk key (DiskFile.record entry) }

/-- Embedding of `CacheManager.invalidate`: removes the key from both
tiers; absence is not an error. -/
def invalidate {V : Type} (s : CacheState V) (key : String) : CacheState V :=
  { memory := del s.memory key, disk := del s.disk key }

/-- Embedding of `CacheManager.clear`: empties the memory tier and
deletes every durable file. -/
def clear {V : Type} (_s : CacheState V) : CacheState V :=
  { memory := fun _ => none, disk := fun _ => none }

/-- Embedding of `CacheManager.cleanup`: the memory pass deletes entries
that fail validation; the disk pass deletes files that decode to an entry
failing validation and keeps undecodable files. -/
def cleanup {V : Type} (s : CacheState V) (now : ℤ) (max_age : Option ℤ) : CacheState V :=
  { memory := fun k =>
      match s.memory k with
      | some e => if is_cache_valid now e max_age then some e else none
      | none => none,
    disk := fun k =>
      match s.disk k with
      | some f =>
        match read_cache_file f with
        | some e => if is_cache_valid now e max_age then some f else none
        | none => some f
      | none => none }

/-- The validity rule exactly as the specification states it in its
section 4.1: three branches on whether max_age was supplied and whether
the entry carries a stored ttl, with no special treatment of zero. -/
def claimed_valid {V : Type} (now : ℤ) (entry : CacheEntry V) (max_age : Option ℤ) : Bool :=
  match max_age with
  | none => true
  | some m =>
    match entry.ttl with
    | some t => decide (now - entry.timestamp < t)
    | none => decide (now - entry.timestamp < m)

/-- The validity rule as amended: a supplied zero max_age behaves as an
absent one, and a stored zero ttl behaves as an absent one; otherwise the
three branches of the specification apply unchanged. -/
def amended_valid {V : Type} (now : ℤ) (entry : CacheEntry V) (max_age : Option ℤ) : Bool :=
  match max_age with
  | none => true
  | some m =>
    if m = 0 then true
    else
      match entry.ttl with
      | some t =>
        if t = 0 then decide (now - entry.timestamp < m)
        else decide (now - entry.timestamp < t)
      | none => decide (now - entry.timestamp < m)

theorem valid_characterization {V : Type} (now : ℤ) (e : CacheEntry V) (ma : Option ℤ) :
    is_cache_valid now e ma = amended_valid now e ma := by
  cases ma with
  | none => rfl
  | some m =>
    by_cases hm : m = 0
    · subst hm
      simp [is_cache_valid, amended_valid, truthy]
    · cases ht : e.ttl with
      | none => simp [is_cache_valid, amended_valid, truthy, hm, ht]
      | some t =>
        by_cases ht0 : t = 0
        · subst ht0
          simp [is_cache_valid, amended_valid, truthy, hm, ht]
        · simp [is_cache_valid, amended_valid, truthy, hm, ht, ht0]

theorem valid_of_zero_max_age {V : Type} (now : ℤ) (e : CacheEntry V) :
    is_cache_valid now e (some 0) = true := by
  simp [is_cache_valid, truthy]

theorem valid_of_no_max_age {V : Type} (now : ℤ) (e : CacheEntry V) :
    is_cache_valid now e none = true := rfl

end CacheManager

def keyA : String := "a"
def keyK : String := "k"

/-- C1, counterexample: at age 5 with a supplied zero max_age and no
stored ttl, the code deems the entry valid while the claimed three-branch
rule deems it invalid, so the validity check does not implement the
claimed rule exactly. -/
theorem C1_counterexample :
    CacheManager.is_cache_valid (5 : ℤ) (⟨0, none, 0⟩ : CacheEntry ℕ) (some 0) ≠
      CacheManager.claimed_valid (5 : ℤ) (⟨0, none, 0⟩ : CacheEntry ℕ) (some 0) := by
  decide

/-- C1, amended: the validity check implements the three-branch rule with
two zero provisos: a supplied zero max_age is treated as if no max_age
were supplied, and a stored zero ttl is treated as if no ttl were
stored. -/
theorem C1_validity_rule (V : Type) (now : ℤ) (e : CacheEntry V) (ma : Option ℤ) :
    CacheManager.is_cache_valid now e ma = CacheManager.amended_valid now e ma :=
  CacheManager.valid_characterization now e ma

/-- C2: for every key and payload, set followed immediately by get with
no max_age returns the payload just stored. -/
theorem C2_set_get_roundtrip (V : Type) (s : CacheManager.CacheState V) (t : ℤ)
    (k : String) (v : V) :
    CacheManager.get (CacheManager.set s t k v none) t k none
      = (some v, CacheManager.set s t k v none) := by
  simp [CacheManager.get, CacheManager.set, CacheManager.upd,
    CacheManager.is_cache_valid, CacheManager.truthy]

/-- C3, counterexample: after set with ttl two seconds at time 0, a get
at time 3 (elapsed 3, at least the ttl) that passes max_age equal to the
zero duration still returns the payload, contradicting absence regardless
of the max_age value passed. -/
theorem C3_counterexample :
    (CacheManager.get
        (CacheManager.set CacheManager.emptyState 0 keyK (0 : ℕ) (some 2)) 3 keyK (some 0)).1
      = some 0 := by
  decide

/-- C3, amended: for a nonzero stored ttl T and a supplied nonzero
max_age M, get returns the payload while the elapsed time is below T and
returns absent once the elapsed time is at least T, regardless of the
nonzero M passed. -/
theorem C3_ttl_expiry (V : Type) (s : CacheManager.CacheState V) (t0 t1 : ℤ)
    (k : String) (v : V) (T M : ℤ) (hT : T ≠ 0) (hM : M ≠ 0) :
    (t1 - t0 < T →
      CacheManager.get (CacheManager.set s t0 k v (some T)) t1 k (some M)
        = (some v, CacheManager.set s t0 k v (some T))) ∧
    (T ≤ t1 - t0 →
      CacheManager.get (CacheManager.set s t0 k v (some T)) t1 k (some M)
        = (none, CacheManager.set s t0 k v (some T))) := by
  constructor
  · intro h
    simp [CacheManager.get, CacheManager.set, CacheManager.upd,
      CacheManager.is_cache_valid, CacheManager.truthy, hT, hM, h]
  · intro h
    have h2 : ¬ (t1 - t0 < T) := not_lt.mpr h
    simp [CacheManager.get, CacheManager.get_disk, CacheManager.read_cache_file,
      decode, CacheManager.set, CacheManager.upd, CacheManager.is_cache_valid,
      CacheManager.truthy, hT, hM, h2]

/-- C3 witness: the amended statement applied at ttl 2, max_age 5, write
at time 0 and read at time 3. -/
theorem C3_ttl_expiry_witness :
    (2 : ℤ) ≠ 0 ∧ (5 : ℤ) ≠ 0 ∧
    (((3 : ℤ) - 0 < 2 →
      CacheManager.get (CacheManager.set CacheManager.emptyState 0 keyK (7 : ℕ) (some 2)) 3 keyK (some 5)
        = (some 7, CacheManager.set CacheManager.emptyState 0 keyK (7 : ℕ) (some 2))) ∧
    ((2 : ℤ) ≤ (3 : ℤ) - 0 →
      CacheManager.get (CacheManager.set CacheManager.emptyState 0 keyK (7 : ℕ) (some 2)) 3 keyK (some 5)
        = (none, CacheManager.set CacheManager.emptyState 0 keyK (7 : ℕ) (some 2)))) :=
  ⟨by decide, by decide,
    C3_ttl_expiry ℕ CacheManager.emptyState 0 3 keyK 7 2 5 (by decide) (by decide)⟩

/-- The state of the concrete scenario of C4: a write of payload 1 under
key a with ttl two seconds at time 0. -/
def s4 : CacheManager.CacheState ℕ :=
  CacheManager.set CacheManager.emptyState 0 keyA (1 : ℕ) (some 2)

/-- C4, counterexample: three seconds after the write with ttl two
seconds, a get with no max_age still returns the payload, and a cleanup
with no max_age leaves the durable record in place, contradicting the
claimed scenario outcome. -/
theorem C4_counterexample :
    (CacheManager.get s4 3 keyA none).1 = some 1 ∧
    (CacheManager.cleanup s4 3 none).disk keyA ≠ none := by
  decide

/-- C4, amended: the scenario holds when the post-sleep get and the
cleanup are given a nonzero max_age: the immediate get returns the
payload, the get at elapsed time 3 with max_age 5 returns absent, and the
durable record is gone after cleanup with max_age 5. -/
theorem C4_scenario :
    (CacheManager.get s4 0 keyA none).1 = some 1 ∧
    (CacheManager.get s4 3 keyA (some 5)).1 = none ∧
    (CacheManager.cleanup s4 3 (some 5)).disk keyA = none := by
  decide

/-- A memory entry for the C5 counterexample: created at time 0, no ttl,
payload 0. -/
def e5 : CacheEntry ℕ := ⟨0, none, 0⟩

/-- A state holding only the entry e5 in the memory tier. -/
def s5 : CacheManager.CacheState ℕ :=
  { memory := CacheManager.upd (fun _ => none) keyK e5, disk := fun _ => none }

/-- C5, counterexample: with max_age zero supplied at time 5, the entry
e5 fails the claimed validity rule yet cleanup keeps it in the memory
tier, so cleanup does not remove exactly the rule-failing entries. -/
theorem C5_counterexample :
    CacheManager.claimed_valid (5 : ℤ) e5 (some 0) = false ∧
    (CacheManager.cleanup s5 5 (some 0)).memory keyK = some e5 := by
  decide

/-- C5, amended: for every max_age, cleanup keeps in the memory tier and
in the durable tier exactly the entries satisfying the amended validity
rule of C1, and keeps undecodable durable files in place. -/
theorem C5_cleanup_exact (V : Type) (s : CacheManager.CacheState V) (now : ℤ)
    (ma : Option ℤ) (k : String) :
    (∀ e : CacheEntry V,
      (CacheManager.cleanup s now ma).memory k = some e ↔
        s.memory k = some e ∧ CacheManager.amended_valid now e ma = true) ∧
    (∀ e : CacheEntry V,
      (CacheManager.cleanup s now ma).disk k = some (DiskFile.record e) ↔
        s.disk k = some (DiskFile.record e) ∧ CacheManager.amended_valid now e ma = true) ∧
    ((CacheManager.cleanup s now ma).disk k = some DiskFile.corrupt ↔
        s.disk k = some DiskFile.corrupt) := by
  refine ⟨?_, ?_, ?_⟩
  · intro e
    cases hm : s.memory k with
    | none => simp [CacheManager.cleanup, hm]
    | some e0 =>
      by_cases hv : CacheManager.is_cache_valid now e0 ma = true
      · have hv2 := hv
        rw [CacheManager.valid_characterization] at hv2
        simp only [CacheManager.cleanup, hm, hv, if_true]
        constructor
        · intro h
          injection h with h
          subst h
          exact ⟨rfl, hv2⟩
        · rintro ⟨he, _⟩
          exact he
      · have hv2 : CacheManager.amended_valid now e0 ma ≠ true := by
          rw [← CacheManager.valid_characterization]
          exact hv
        simp only [CacheManager.cleanup, hm, hv, if_false, Bool.not_eq_true] at *
        constructor
        · intro h
          exact absurd h (by simp)
        · rintro ⟨he, hev⟩
          injection he with he
          subst he
          exact absurd hev (by simpa using hv2)
  · intro e
    cases hd : s.disk k with
    | none => simp [CacheManager.cleanup, hd]
    | some f =>
      cases f with
      | corrupt =>
        simp [CacheManager.cleanup, hd, CacheManager.read_cache_file, decode]
      | record e0 =>
        by_cases hv : CacheManager.is_cache_valid now e0 ma = true
        · have hv2 := hv
          rw [CacheManager.valid_characterization] at hv2
          simp only [CacheManager.cleanup, hd, CacheManager.read_cache_file, decode, hv, if_true]
          constructor
          · intro h
            injection h with h
            injection h with h
            subst h
            exact ⟨rfl, hv2⟩
          · rintro ⟨he, _⟩
            exact he
        · have hv2 : CacheManager.amended_valid now e0 ma ≠ true := by
            rw [← CacheManager.valid_characterization]
            exact hv
          simp only [CacheManager.cleanup, hd, CacheManager.read_cache_file, decode,
            Bool.not_eq_true] at *
          simp only [hv, if_false]
          constructor
          · intro h
            exact absurd h (by simp)
          · rintro ⟨he, hev⟩
            injection he with he
            injection he with he
            subst he
            exact absurd hev (by simpa using hv2)
  · cases hd : s.disk k with
    | none => simp [CacheManager.cleanup, hd]
    | some f =>
      cases f with
      | corrupt => simp [CacheManager.cleanup, hd, CacheManager.read_cache_file, decode]
      | record e0 =>
        simp only [CacheManager.cleanup, hd, CacheManager.read_cache_file, decode]
        by_cases hv : CacheManager.is_cache_valid now e0 ma = true
        · simp [hv]
        · simp only [Bool.not_eq_true] at hv
          simp [hv]

/-- C5 witness: the amended statement applied to the state s5 at time 5
with max_age 3, memory tier component, at the entry e5. -/
theorem C5_cleanup_exact_witness :
    (CacheManager.cleanup s5 5 (some 3)).memory keyK = some e5 ↔
      s5.memory keyK = some e5 ∧ CacheManager.amended_valid 5 e5 (some 3) = true :=
  (C5_cleanup_exact ℕ s5 5 (some 3) keyK).1 e5

/-- C6: a get that misses the memory tier and finds a decodable and valid
record in the durable tier returns its payload and promotes the entry
into the memory tier of the returned state. -/
theorem C6_disk_promote (V : Type) (s : CacheManager.CacheState V) (now : ℤ)
    (k : String) (e : CacheEntry V) (ma : Option ℤ)
    (hmem : s.memory k = none) (hdisk : s.disk k = some (DiskFile.record e))
    (hvalid : CacheManager.is_cache_valid now e ma = true) :
    CacheManager.get s now k ma =
      (some e.data, { s with memory := CacheManager.upd s.memory k e }) := by
  simp [CacheManager.get, CacheManager.get_disk, CacheManager.read_cache_file, decode,
    hmem, hdisk, hvalid]

/-- The durable record used by the C6 witness: written at time 0 with ttl
2 and payload 9. -/
def e6 : CacheEntry ℕ := ⟨0, some 2, 9⟩

/-- A restart state for the C6 witness: empty memory tier over a durable
directory holding the record e6 under key a. -/
def s6 : CacheManager.CacheState ℕ :=
  { memory := fun _ => none,
    disk := CacheManager.upd (fun _ => none) keyA (DiskFile.record e6) }

/-- C6 witness: on the restart state s6, a get at time 1 with max_age 5
returns the persisted payload and promotes the record into memory. -/
theorem C6_disk_promote_witness :
    s6.memory keyA = none ∧
    s6.disk keyA = some (DiskFile.record e6) ∧
    CacheManager.is_cache_valid 1 e6 (some 5) = true ∧
    CacheManager.get s6 1 keyA (some 5) =
      (some e6.data, { s6 with memory := CacheManager.upd s6.memory keyA e6 }) :=
  ⟨rfl, by decide, by decide,
    C6_disk_promote ℕ s6 1 keyA e6 (some 5) rfl (by decide) (by decide)⟩

/-- C7: invalidate removes the key from both tiers unconditionally (it is
a total operation, defined on every state, so absence of the key in
either tier is not an error), and a subsequent get for that key with any
max_age returns absent and leaves the state unchanged. -/
theorem C7_invalidate_absent (V : Type) (s : CacheManager.CacheState V) (k : String)
    (now : ℤ) (ma : Option ℤ) :
    (CacheManager.invalidate s k).memory k = none ∧
    (CacheManager.invalidate s k).disk k = none ∧
    CacheManager.get (CacheManager.invalidate s k) now k ma
      = (none, CacheManager.invalidate s k) := by
  refine ⟨?_, ?_, ?_⟩ <;>
    simp [CacheManager.invalidate, CacheManager.del, CacheManager.get,
      CacheManager.get_disk]

/-- C8: clear empties the memory tier and deletes every durable record,
so a subsequent get for any key with any max_age returns absent. -/
theorem C8_clear_absent (V : Type) (s : CacheManager.CacheState V) (k : String)
    (now : ℤ) (ma : Option ℤ) :
    (CacheManager.clear s).memory k = none ∧
    (CacheManager.clear s).disk k = none ∧
    CacheManager.get (CacheManager.clear s) now k ma = (none, CacheManager.clear s) := by
  refine ⟨rfl, rfl, rfl⟩

/-- C9: an undecodable durable record is an internal fault that never
reaches the caller: the raw decode errors, read_cache_file absorbs the
error into none, a get that reaches the record degrades to absent with no
state change, and cleanup leaves the unreadable file in place. -/
theorem C9_fault_absorbed (V : Type) (s : CacheManager.CacheState V) (now : ℤ)
    (k : String) (ma : Option ℤ)
    (hmem : s.memory k = none) (hdisk : s.disk k = some DiskFile.corrupt) :
    decode (DiskFile.corrupt : DiskFile V) = Except.error msgMalformed ∧
    CacheManager.read_cache_file (DiskFile.corrupt : DiskFile V) = none ∧
    CacheManager.get s now k ma = (none, s) ∧
    (CacheManager.cleanup s now ma).disk k = some DiskFile.corrupt := by
  refine ⟨rfl, rfl, ?_, ?_⟩
  · simp [CacheManager.get, CacheManager.get_disk, CacheManager.read_cache_file, decode,
      hmem, hdisk]
  · simp [CacheManager.cleanup, CacheManager.read_cache_file, decode, hdisk]

/-- A state for the C9 witness: empty memory tier, one corrupt durable
file under key a. -/
def s9 : CacheManager.CacheState ℕ :=
  { memory := fun _ => none,
    disk := CacheManager.upd (fun _ => none) keyA DiskFile.corrupt }

/-- C9 witness: on the state s9, the fault absorption statement holds at
time 4 with max_age 2. -/
theorem C9_fault_absorbed_witness :
    s9.memory keyA = none ∧
    s9.disk keyA = some DiskFile.corrupt ∧
    (decode (DiskFile.corrupt : DiskFile ℕ) = Except.error msgMalformed ∧
    CacheManager.read_cache_file (DiskFile.corrupt : DiskFile ℕ) = none ∧
    CacheManager.get s9 4 keyA (some 2) = (none, s9) ∧
    (CacheManager.cleanup s9 4 (some 2)).disk keyA = some DiskFile.corrupt) :=
  ⟨rfl, by decide, C9_fault_absorbed ℕ s9 4 keyA (some 2) rfl (by decide)⟩

/-- C10: zero durations behave as absent ones: get and cleanup with a
zero max_age coincide with their no-max_age calls, set with a zero ttl
stores the same entry as set with no ttl, and an entry carrying a stored
zero ttl validates exactly like one carrying none. -/
theorem C10_zero_durations (V : Type) (s : CacheManager.CacheState V)
    (now ts m : ℤ) (k : String) (v : V) :
    CacheManager.get s now k (some 0) = CacheManager.get s now k none ∧
    CacheManager.cleanup s now (some 0) = CacheManager.cleanup s now none ∧
    CacheManager.set s now k v (some 0) = CacheManager.set s now k v none ∧
    CacheManager.is_cache_valid now (⟨ts, some 0, v⟩ : CacheEntry V) (some m)
      = CacheManager.is_cache_valid now (⟨ts, none, v⟩ : CacheEntry V) (some m) := by
  refine ⟨?_, ?_, ?_, ?_⟩
  · cases hm : s.memory k with
    | some e =>
      simp [CacheManager.get, hm, CacheManager.valid_of_zero_max_age,
        CacheManager.valid_of_no_max_age]
    | none =>
      cases hd : s.disk k with
      | none => simp [CacheManager.get, CacheManager.get_disk, hm, hd]
      | some f =>
        cases f with
        | record e =>
          simp [CacheManager.get, CacheManager.get_disk, CacheManager.read_cache_file,
            decode, hm, hd, CacheManager.valid_of_zero_max_age,
            CacheManager.valid_of_no_max_age]
        | corrupt =>
          simp [CacheManager.get, CacheManager.get_disk, CacheManager.read_cache_file,
            decode, hm, hd]
  · ext j
    · cases hm : s.memory j <;>
        simp [CacheManager.cleanup, hm, CacheManager.valid_of_zero_max_age,
          CacheManager.valid_of_no_max_age]
    · cases hd : s.disk j with
      | none => simp [CacheManager.cleanup, hd]
      | some f =>
        cases f with
        | record e =>
          simp [CacheManager.cleanup, hd, CacheManager.read_cache_file, decode,
            CacheManager.valid_of_zero_max_age, CacheManager.valid_of_no_max_age]
        | corrupt =>
          simp [CacheManager.cleanup, hd, CacheManager.read_cache_file, decode]
  · rfl
  · by_cases hm : m = 0
    · subst hm
      simp [CacheManager.valid_of_zero_max_age]
    · simp [CacheManager.is_cache_valid, CacheManager.truthy, hm]

end NumVerify
